import Mathlib

/-
A verification model of the orchestration core of the SpectraLearnPredict2
spectroscopy pipeline, covering:

  * slp_pca.py    (runPCA)
  * slp_io.py     (LearnPredictFile, LearnPredictBatch, processSingleBatch,
                   LearnPredictMap)

External collaborators (file loaders, preprocessors, the actual model
libraries) are opaque services in the repository's own design; here they are
represented by oracle records whose outputs are abstract tokens, while the
orchestration logic (branching on configuration flags, sequencing, row
assembly, summary writes, config mutation, the map loop and its array
aliasing) is translated from the Python source.
-/

namespace SLP

/-! ## PCA diagnostic - slp_pca.py, runPCA (lines 39-60)

The computational content of runPCA: count the distinct labels, pick the
number of principal components from the configuration, and report the result.
Plotting and the explained-variance printout do not modify any input. -/

/-- Number of distinct elements, as computed by np.unique(Cl).shape[0]. -/
def np_uniqueCount (Cl : List Int) : Nat := Cl.dedup.length

/-- Diagnostic output of runPCA: the printed unique-label count and the
number of principal components handed to PCA(n_components=...). -/
structure PCADiag where
  nUnique : Nat
  numComponents : Nat
  deriving DecidableEq, Repr

/-- slp_pca.py, lines 49-55.  `custom` is pcaDef.customNumPCAComp; the
feature matrix A, energy axis En and YnormXind are opaque tokens (runPCA
only reads them).  The component count is the number of distinct labels
unless a custom count is configured. -/
def runPCA (En : Int) (Cl : List Int) (A YnormXind : Int) (custom : Bool)
    (numPCAcomponents : Nat) : PCADiag :=
  { nUnique := np_uniqueCount Cl,
    numComponents :=
      if custom = false then np_uniqueCount Cl else numPCAcomponents }

/-! ## Single-file mode - slp_io.py, LearnPredictFile (lines 40-93) -/

/-- Opaque external collaborators of LearnPredictFile.  Tokens are Int;
labels are a List Int so the PCA diagnostic can count distinct labels. -/
structure FilePipeOracles where
  /-- readLearnFile(learnFile) = (En, Cl, A, YnormXind). -/
  readLearnFileEn : Int
  readLearnFileCl : List Int
  readLearnFileA : Int
  readLearnFileY : Int
  /-- readPredFile(sampleFile) = (R, Rx). -/
  readPredFileR : Int
  readPredFileRx : Int
  /-- preProcessNormLearningData(A, En, Cl, YnormXind, 0) = (A, Cl, En, Aorig). -/
  prepLearnA : Int → Int → List Int → Int → Int
  prepLearnCl : Int → Int → List Int → Int → List Int
  prepLearnEn : Int → Int → List Int → Int → Int
  prepLearnAorig : Int → Int → List Int → Int → Int
  /-- preProcessNormPredData(R, Rx, En, YnormXind, 0) = (R, Rorig). -/
  prepPredR : Int → Int → Int → Int → Int
  prepPredRorig : Int → Int → Int → Int → Int

/-- Configuration read by LearnPredictFile's PCA step (pcaDef). -/
structure FileCfg where
  runPCA : Bool
  customNumPCAComp : Bool
  numPCAcomponents : Nat

/-- The data handed to every downstream model adapter in single-file mode:
the preprocessed training matrix A, labels Cl, energy axis En, the
preprocessed prediction data R, and the unnormalized copies. -/
structure AdapterInputs where
  A : Int
  Cl : List Int
  En : Int
  R : Int
  Aorig : Int
  Rorig : Int
  deriving DecidableEq

/-- Result of the single-file pipeline up to the model adapters: the PCA
diagnostic (if the flag is on) and the inputs fed downstream. -/
structure FileRunResult where
  pcaDiag : Option PCADiag
  inputs : AdapterInputs
  deriving DecidableEq

/-- slp_io.py, lines 40-55: read the training file; if pcaDef.runPCA, call
runPCA (its value is not bound to anything in the source); read the
prediction file; preprocess the training data, then the prediction data
(with the reassigned En); the results are what every enabled model adapter
receives. -/
def LearnPredictFile (c : FileCfg) (o : FilePipeOracles) : FileRunResult :=
  let En := o.readLearnFileEn
  let Cl := o.readLearnFileCl
  let A := o.readLearnFileA
  let Y := o.readLearnFileY
  let pcaDiag :=
    if c.runPCA then
      some (runPCA En Cl A Y c.customNumPCAComp c.numPCAcomponents)
    else none
  let R0 := o.readPredFileR
  let Rx := o.readPredFileRx
  let A' := o.prepLearnA A En Cl Y
  let Cl' := o.prepLearnCl A En Cl Y
  let En' := o.prepLearnEn A En Cl Y
  let Aorig := o.prepLearnAorig A En Cl Y
  let R' := o.prepPredR R0 Rx En' Y
  let Rorig := o.prepPredRorig R0 Rx En' Y
  { pcaDiag := pcaDiag,
    inputs := { A := A', Cl := Cl', En := En', R := R', Aorig := Aorig,
                Rorig := Rorig } }

/-! ## Batch mode file selection - slp_io.py, LearnPredictBatch (161-172) -/

/-- Whether a directory entry matches the glob pattern given to
glob.glob('*.txt'): it ends in ".txt" and a leading dot is not matched
by the asterisk. -/
def matchesTxtGlob (f : String) : Bool :=
  f.endsWith ".txt" && !(f.startsWith ".")

/-- The files of the working directory returned by glob.glob('*.txt'). -/
def globTxt (dir : List String) : List String := dir.filter matchesTxtGlob

/-- The files submitted to processSingleBatch.  Both the multiprocessing
branch (lines 164-166) and the sequential branch (lines 170-172) iterate
glob.glob('*.txt') and guard each file with (f != learnFile). -/
def batchTargets (dir : List String) (learnFile : String) : List String :=
  (globTxt dir).filter (fun f => !(f == learnFile))

/-! ## Batch mode - slp_io.py, LearnPredictBatch / processSingleBatch
(lines 154-230)

processSingleBatch builds the row summaryFile = [f] in memory, extends it
per enabled model in source order (DNN-TF, Keras, sklearn-NN, SVM, raw TF,
K-Means), flips the per-family configuration flags, and appends the row to
the summary file only at the very end.  A Python exception in any step
propagates: it is modelled by Except, and the summary append never happens
on the error path. -/

/-- One CSV field of a summary row. -/
inductive BField
  | str (s : String)
  | val (v : Int)
  deriving DecidableEq, Repr

/-- The enable flags read by processSingleBatch (from slp_config). -/
structure BatchCfg where
  runDNNTF : Bool
  runSkflowDNNTF : Bool
  runKeras : Bool
  runNN : Bool
  runSVM : Bool
  runTF : Bool
  runKM : Bool
  deriving DecidableEq, Repr

/-- The process-wide mutable configuration attributes that
processSingleBatch assigns (lines 192, 205, 212, 219, 223). -/
structure MutFlags where
  dnntf_alwaysRetrain : Bool
  nn_alwaysRetrain : Bool
  svm_alwaysRetrain : Bool
  tf_tfalwaysRetrain : Bool
  km_plotKM : Bool
  deriving DecidableEq, Repr

/-- Accumulator threaded through the model branches: the mutable flags and
the summaryFile row under construction. -/
def StAcc : Type := MutFlags × List BField

/-- Opaque external collaborators of processSingleBatch.  Handles, data and
predictions are Int tokens; each call can raise (Except).  trainNN and
predNN stand for trainNN(A, Cl, A, Cl, root) and
predNN(clf, A, Cl, R, le) with the run-constant arguments dropped, and
likewise for the other families. -/
structure BatchOracles where
  readPredFile : String → Except Unit (Int × Int)
  preProcessNormPredData : Int → Int → Except Unit (Int × Int)
  trainDNNTF : Except Unit (Int × Int)
  trainDNNTF2 : Except Unit (Int × Int)
  predDNNTF : Int → Int → Int → Except Unit (Int × Int)
  predDNNTF2 : Int → Int → Int → Except Unit (Int × Int)
  trainKeras : Except Unit (Int × Int)
  predKeras : Int → Int → Int → Except Unit (Int × Int)
  /-- Modelled from the spec: line 197 reads the name model_keras, which is
  not bound in processSingleBatch (line 196 binds `model`); it can only
  resolve to a global of the wildcard-imported slp_keras module, which is
  not part of this repository snapshot.  The spec treats the Keras adapter
  as an opaque model handle, so the global is one opaque token. -/
  model_keras : Int
  trainNN : Except Unit (Int × Int)
  predNN : Int → Int → Int → Except Unit (Int × Int)
  trainSVM : Except Unit (Int × Int)
  predSVM : Int → Int → Int → Except Unit (Int × Int)
  trainTF : Except Unit Unit
  predTF : Int → Except Unit (Int × Int)
  /-- Modelled from the spec: line 218 reads the name tfAccur, not bound in
  processSingleBatch; it can only resolve to a global of the
  wildcard-imported slp_tf module, absent from this snapshot.  The spec
  says the raw-TensorFlow family reports one extra accuracy field, so the
  global is one opaque value. -/
  tfAccur : Int
  runKMmain : Int → Int → Except Unit Int

/-- slp_io.py lines 184-192: the DNN-TF branch.  Train, predict, extend the
row by prediction and probability, then set dnntfDef.alwaysRetrain = False. -/
def dnntfStep (c : BatchCfg) (o : BatchOracles) (R : Int) (a : StAcc) :
    Except Unit StAcc :=
  if c.runDNNTF then
    match (if c.runSkflowDNNTF then
        match o.trainDNNTF2 with
        | .error e => .error e
        | .ok m => o.predDNNTF2 m.1 m.2 R
      else
        match o.trainDNNTF with
        | .error e => .error e
        | .ok m => o.predDNNTF m.1 m.2 R : Except Unit (Int × Int)) with
    | .error e => .error e
    | .ok pr =>
        .ok ({ a.1 with dnntf_alwaysRetrain := false },
             a.2 ++ [BField.val pr.1, BField.val pr.2])
  else .ok a

/-- slp_io.py lines 195-198: the Keras branch.  Train (binding `model`),
predict from the global model_keras, extend the row; no flag is assigned. -/
def kerasStep (c : BatchCfg) (o : BatchOracles) (R : Int) (a : StAcc) :
    Except Unit StAcc :=
  if c.runKeras then
    match o.trainKeras with
    | .error e => .error e
    | .ok m =>
      match o.predKeras o.model_keras m.2 R with
      | .error e => .error e
      | .ok pr => .ok (a.1, a.2 ++ [BField.val pr.1, BField.val pr.2])
  else .ok a

/-- slp_io.py lines 201-205: the sklearn-NN branch. -/
def nnStep (c : BatchCfg) (o : BatchOracles) (R : Int) (a : StAcc) :
    Except Unit StAcc :=
  if c.runNN then
    match o.trainNN with
    | .error e => .error e
    | .ok m =>
      match o.predNN m.1 m.2 R with
      | .error e => .error e
      | .ok pr =>
          .ok ({ a.1 with nn_alwaysRetrain := false },
               a.2 ++ [BField.val pr.1, BField.val pr.2])
  else .ok a

/-- slp_io.py lines 208-212: the SVM branch. -/
def svmStep (c : BatchCfg) (o : BatchOracles) (R : Int) (a : StAcc) :
    Except Unit StAcc :=
  if c.runSVM then
    match o.trainSVM with
    | .error e => .error e
    | .ok m =>
      match o.predSVM m.1 m.2 R with
      | .error e => .error e
      | .ok pr =>
          .ok ({ a.1 with svm_alwaysRetrain := false },
               a.2 ++ [BField.val pr.1, BField.val pr.2])
  else .ok a

/-- slp_io.py lines 215-219: the raw-TensorFlow branch; the row is extended
by prediction, probability and the accuracy global, then
tfDef.tfalwaysRetrain = False. -/
def tfStep (c : BatchCfg) (o : BatchOracles) (R : Int) (a : StAcc) :
    Except Unit StAcc :=
  if c.runTF then
    match o.trainTF with
    | .error e => .error e
    | .ok _ =>
      match o.predTF R with
      | .error e => .error e
      | .ok pr =>
          .ok ({ a.1 with tf_tfalwaysRetrain := false },
               a.2 ++ [BField.val pr.1, BField.val pr.2, BField.val o.tfAccur])
  else .ok a

/-- slp_io.py lines 222-225: the K-Means branch; kmDef.plotKM = False, then
runKMmain, and the row is extended by the single prediction value. -/
def kmStep (c : BatchCfg) (o : BatchOracles) (R Rorig : Int) (a : StAcc) :
    Except Unit StAcc :=
  if c.runKM then
    match o.runKMmain R Rorig with
    | .error e => .error e
    | .ok p =>
        .ok ({ a.1 with km_plotKM := false }, a.2 ++ [BField.val p])
  else .ok a

/-- slp_io.py lines 174-230: read the prediction file, start the row as
[f], preprocess, run the six model branches in source order, and return the
final flags and the completed row (which the source then appends to the
summary file). -/
def processSingleBatch (c : BatchCfg) (o : BatchOracles) (f : String)
    (st : MutFlags) : Except Unit (MutFlags × List BField) :=
  match o.readPredFile f with
  | .error e => .error e
  | .ok rd =>
    match o.preProcessNormPredData rd.1 rd.2 with
    | .error e => .error e
    | .ok pp =>
      match dnntfStep c o pp.1 (st, [BField.str f]) with
      | .error e => .error e
      | .ok a1 =>
        match kerasStep c o pp.1 a1 with
        | .error e => .error e
        | .ok a2 =>
          match nnStep c o pp.1 a2 with
          | .error e => .error e
          | .ok a3 =>
            match svmStep c o pp.1 a3 with
            | .error e => .error e
            | .ok a4 =>
              match tfStep c o pp.1 a4 with
              | .error e => .error e
              | .ok a5 =>
                match kmStep c o pp.1 pp.2 a5 with
                | .error e => .error e
                | .ok a6 => .ok a6

/-- The rows appended to the summary file by one processSingleBatch call:
the completed row on success, nothing when any step raised (the
`with open(...) ... writerow` at lines 227-229 is only reached at the end). -/
def processSingleBatchWrites (c : BatchCfg) (o : BatchOracles) (f : String)
    (st : MutFlags) : List (List BField) :=
  match processSingleBatch c o f st with
  | .ok r => [r.2]
  | .error _ => []

/-- The sequence of mutable-flag states after each file of a sequential
batch run (lines 170-172); an exception aborts the loop. -/
def batchStatesSeq (c : BatchCfg) (o : BatchOracles) :
    List String → MutFlags → List MutFlags
  | [], _ => []
  | f :: fs, st =>
    match processSingleBatch c o f st with
    | .error _ => []
    | .ok r => r.1 :: batchStatesSeq c o fs r.1

/-- One write to the summary file. -/
inductive SummaryWrite
  | header (learnFile : String)
  | row (r : List BField)
  deriving DecidableEq, Repr

/-- Whether a summary write is the header row. -/
def isHeaderWrite : SummaryWrite → Bool
  | .header _ => true
  | .row _ => false

/-- The summary rows appended by the sequential loop of LearnPredictBatch
(lines 170-172), threading the mutable flags from file to file. -/
def seqRowWrites (c : BatchCfg) (o : BatchOracles) :
    List String → MutFlags → List SummaryWrite
  | [], _ => []
  | f :: fs, st =>
    match processSingleBatch c o f st with
    | .error _ => []
    | .ok r => SummaryWrite.row r.2 :: seqRowWrites c o fs r.1

/-- slp_io.py lines 154-172, sequential branch: makeHeaderSummary writes
the header first, then every batch target appends its row. -/
def batchTraceSeq (c : BatchCfg) (o : BatchOracles) (dir : List String)
    (learnFile : String) (st0 : MutFlags) : List SummaryWrite :=
  SummaryWrite.header learnFile ::
    seqRowWrites c o (batchTargets dir learnFile) st0

/-- slp_io.py lines 154-168, multiprocessing branch: the header is written
before the pool starts; each worker is a fresh process starting from the
parent's flags st0, and completed rows reach the file in an arbitrary
completion order. -/
def batchTracePar (c : BatchCfg) (o : BatchOracles) (learnFile : String)
    (completions : List String) (st0 : MutFlags) : List SummaryWrite :=
  SummaryWrite.header learnFile ::
    completions.flatMap
      (fun f => (processSingleBatchWrites c o f st0).map SummaryWrite.row)

/-- Modelled from the spec: the summary-row layout asserted by the spec and
by claim C1 — filename first, then for each enabled model in the order
DNN-variant, generic-NN, SVM, raw-TensorFlow, Keras, clustering, its
predicted label and confidence, with the extra accuracy field attached to
the raw-TensorFlow family.  This definition follows the claim's words; it
is compared against the row processSingleBatch actually builds. -/
def claimSummaryRow (c : BatchCfg) (f : String) (dn nn svm tf : Int × Int)
    (tfA : Int) (ke km : Int × Int) : List BField :=
  [BField.str f]
  ++ (if c.runDNNTF = true then [BField.val dn.1, BField.val dn.2] else [])
  ++ (if c.runNN = true then [BField.val nn.1, BField.val nn.2] else [])
  ++ (if c.runSVM = true then [BField.val svm.1, BField.val svm.2] else [])
  ++ (if c.runTF = true then
        [BField.val tf.1, BField.val tf.2, BField.val tfA] else [])
  ++ (if c.runKeras = true then [BField.val ke.1, BField.val ke.2] else [])
  ++ (if c.runKM = true then [BField.val km.1, BField.val km.2] else [])

/-! ## Concrete batch instances used by witnesses and counterexamples -/

/-- All model families enabled (skflow variant off). -/
def cfgAllBatch : BatchCfg :=
  { runDNNTF := true, runSkflowDNNTF := false, runKeras := true,
    runNN := true, runSVM := true, runTF := true, runKM := true }

/-- Only the K-Means family enabled. -/
def cfgKMBatch : BatchCfg :=
  { runDNNTF := false, runSkflowDNNTF := false, runKeras := false,
    runNN := false, runSVM := false, runTF := false, runKM := true }

/-- All mutable flags initially True. -/
def mfAllTrue : MutFlags :=
  { dnntf_alwaysRetrain := true, nn_alwaysRetrain := true,
    svm_alwaysRetrain := true, tf_tfalwaysRetrain := true, km_plotKM := true }

/-- Batch oracles where every step succeeds, with distinct values per model
family so that row positions are distinguishable. -/
def oracleVals : BatchOracles :=
  { readPredFile := fun _ => .ok (0, 0)
    preProcessNormPredData := fun _ _ => .ok (0, 0)
    trainDNNTF := .ok (1, 2)
    trainDNNTF2 := .ok (3, 4)
    predDNNTF := fun _ _ _ => .ok (11, 12)
    predDNNTF2 := fun _ _ _ => .ok (13, 14)
    trainKeras := .ok (5, 6)
    predKeras := fun _ _ _ => .ok (21, 22)
    model_keras := 9
    trainNN := .ok (7, 8)
    predNN := fun _ _ _ => .ok (31, 32)
    trainSVM := .ok (15, 16)
    predSVM := fun _ _ _ => .ok (41, 42)
    trainTF := .ok ()
    predTF := fun _ => .ok (51, 52)
    tfAccur := 53
    runKMmain := fun _ _ => .ok 61 }

/-- Like oracleVals but the SVM training call raises, after DNN-TF, Keras
and sklearn-NN have already produced predictions. -/
def oracleFailSVM : BatchOracles := { oracleVals with trainSVM := .error () }

/-- The row processSingleBatch builds for cfgAllBatch / oracleVals. -/
def rowAllVals : List BField :=
  [BField.str "sample.txt", BField.val 11, BField.val 12, BField.val 21,
   BField.val 22, BField.val 31, BField.val 32, BField.val 41, BField.val 42,
   BField.val 51, BField.val 52, BField.val 53, BField.val 61]

/-! ## Map mode - slp_io.py, LearnPredictMap (lines 235-317)

Line 245 binds svmPred, nnPred, tfPred and kmPred to one and the same
np.empty array (a chained assignment allocates once).  The per-pixel loop
(lines 264-306) preprocesses each spectrum and runs each enabled branch:
DNN-TF and Keras store into arrays that exist only as globals of the
wildcard-imported model modules, NN / SVM / K-Means store into the shared
array, and the raw-TF branch retrains per pixel and rebinds the local name
tfPred to predTF's result before reading tfPred[i] for saveMap.  The
in-loop assignments to alwaysRetrain attributes (lines 276, 286, 292, 299)
and to kmDef.plotKM (line 303) write configuration that the loop never
reads and do not appear in the event trace.  The events one iteration
emits depend only on the pixel index, so the loop trace is a flat map over
the pixel range; the shared array is threaded as a fold. -/

/-- One observable event of LearnPredictMap: a training call, a saveMap
record (model name, pixel index, X, Y, value), a store into an in-memory
array (array id, index, value), or a runKMmain invocation. -/
inductive MapEv
  | train (model : String)
  | sink (model : String) (px : Nat) (x y v : Int)
  | arrWrite (aid px : Nat) (v : Int)
  | kmMain (px : Nat)
  deriving DecidableEq, Repr

/-- Flags read by LearnPredictMap.  dnntf_runKeras is the attribute
dnntfDef.runKeras tested at line 278 for the in-loop Keras branch, while
keras_runKeras is kerasDef.runKeras tested at line 258 for the pre-loop
Keras training — the source uses the two distinct gates. -/
structure MapCfg where
  runDNNTF : Bool
  runSkflowDNNTF : Bool
  dnntf_runKeras : Bool
  keras_runKeras : Bool
  runNN : Bool
  runSVM : Bool
  runTF : Bool
  runKM : Bool
  deriving DecidableEq, Repr

/-- Opaque per-pixel prediction values of the trained models (the models
are trained once before the loop, so a prediction depends only on the
pixel).  predTFread p j is the value of indexing, at j, the object that
predTF returned at pixel p — the raw-TF branch rebinds tfPred to that
object (line 297) and then reads tfPred[i] (line 298); slp_tf is not part
of this snapshot, so the indexing is one opaque family of values. -/
structure MapOracles where
  X : Nat → Int
  Y : Nat → Int
  predDNNTF : Nat → Int
  predDNNTF2 : Nat → Int
  predKeras : Nat → Int
  predNN : Nat → Int
  predSVM : Nat → Int
  predTFread : Nat → Nat → Int
  predKM : Nat → Int

/-- Identity of the single array allocated at line 245. -/
def sharedAid : Nat := 0

/-- Identity of the global array stored through dnntfPred (line 271). -/
def dnntfAid : Nat := 1

/-- Identity of the global array stored through kerasPred (line 279). -/
def kerasAid : Nat := 2

/-- Line 245: svmPred is bound to the single allocation. -/
def svmPredAid : Nat := sharedAid

/-- Line 245: nnPred is bound to the same allocation. -/
def nnPredAid : Nat := sharedAid

/-- Line 245: tfPred is bound to the same allocation. -/
def tfPredAid : Nat := sharedAid

/-- Line 245: kmPred is bound to the same allocation. -/
def kmPredAid : Nat := sharedAid

/-- The events of one iteration of the per-pixel loop (lines 264-306), in
source order: DNN-TF (store and saveMap), Keras (store and saveMap),
sklearn-NN, SVM, raw TF (trainTF then saveMap of tfPred[i] after the
rebinding), K-Means (runKMmain, store, saveMap). -/
def mapBodyEvents (c : MapCfg) (o : MapOracles) (i : Nat) : List MapEv :=
  (if c.runDNNTF then
    [MapEv.arrWrite dnntfAid i
       (if c.runSkflowDNNTF then o.predDNNTF2 i else o.predDNNTF i),
     MapEv.sink "DNN-TF" i (o.X i) (o.Y i)
       (if c.runSkflowDNNTF then o.predDNNTF2 i else o.predDNNTF i)]
   else [])
  ++ (if c.dnntf_runKeras then
    [MapEv.arrWrite kerasAid i (o.predKeras i),
     MapEv.sink "Keras" i (o.X i) (o.Y i) (o.predKeras i)]
   else [])
  ++ (if c.runNN then
    [MapEv.arrWrite sharedAid i (o.predNN i),
     MapEv.sink "NN" i (o.X i) (o.Y i) (o.predNN i)]
   else [])
  ++ (if c.runSVM then
    [MapEv.arrWrite sharedAid i (o.predSVM i),
     MapEv.sink "svm" i (o.X i) (o.Y i) (o.predSVM i)]
   else [])
  ++ (if c.runTF then
    [MapEv.train "TF",
     MapEv.sink "TF" i (o.X i) (o.Y i) (o.predTFread i i)]
   else [])
  ++ (if c.runKM then
    [MapEv.kmMain i,
     MapEv.arrWrite sharedAid i (o.predKM i),
     MapEv.sink "KM" i (o.X i) (o.Y i) (o.predKM i)]
   else [])

/-- The pre-loop training calls (lines 249-262), in source order:
sklearn-NN, DNN-TF, Keras (gated by kerasDef.runKeras), SVM.  No K-Means
call appears before the loop. -/
def mapPreEvents (c : MapCfg) : List MapEv :=
  (if c.runNN then [MapEv.train "NN"] else [])
  ++ (if c.runDNNTF then [MapEv.train "DNN-TF"] else [])
  ++ (if c.keras_runKeras then [MapEv.train "Keras"] else [])
  ++ (if c.runSVM then [MapEv.train "SVM"] else [])

/-- The events of the whole per-pixel loop over pixels 0 .. n-1. -/
def mapLoopEvents (c : MapCfg) (o : MapOracles) (n : Nat) : List MapEv :=
  (List.range n).flatMap (mapBodyEvents c o)

/-- The stores one loop iteration performs on the shared array of line
245: NN, then SVM, then K-Means, each at the current pixel index (the
raw-TF branch stores nothing: it rebinds tfPred instead). -/
def sharedBody (c : MapCfg) (o : MapOracles) (a : List Int) (i : Nat) :
    List Int :=
  let a1 := if c.runNN then a.set i (o.predNN i) else a
  let a2 := if c.runSVM then a1.set i (o.predSVM i) else a1
  if c.runKM then a2.set i (o.predKM i) else a2

/-- The contents of the shared array after the loop, starting from the
uninitialized np.empty contents `init`. -/
def mapShared (c : MapCfg) (o : MapOracles) (n : Nat) (init : List Int) :
    List Int :=
  (List.range n).foldl (sharedBody c o) init

/-- The value retained for plotting through the name nnPred at index j. -/
def nnRetained (c : MapCfg) (o : MapOracles) (n : Nat) (init : List Int)
    (j : Nat) : Int :=
  (mapShared c o n init).getD j 0

/-- The value retained for plotting through the name svmPred at index j. -/
def svmRetained (c : MapCfg) (o : MapOracles) (n : Nat) (init : List Int)
    (j : Nat) : Int :=
  (mapShared c o n init).getD j 0

/-- The value retained for plotting through the name kmPred at index j. -/
def kmRetained (c : MapCfg) (o : MapOracles) (n : Nat) (init : List Int)
    (j : Nat) : Int :=
  (mapShared c o n init).getD j 0

/-- The value retained for plotting through the name tfPred at index j:
when the raw-TF branch ran at least once, tfPred was rebound (line 297)
and holds the object predTF returned at the last pixel; otherwise tfPred
still names the shared array of line 245. -/
def tfRetained (c : MapCfg) (o : MapOracles) (n : Nat) (init : List Int)
    (j : Nat) : Int :=
  if c.runTF = true ∧ n ≠ 0 then o.predTFread (n - 1) j
  else (mapShared c o n init).getD j 0

/-- How many saveMap records a trace holds for a given model name and
pixel index. -/
def countSink (l : List MapEv) (m : String) (px : Nat) : Nat :=
  l.countP fun e =>
    match e with
    | .sink m' px' _ _ _ => m' == m && px' == px
    | _ => false

/-- How many stores a trace holds into a given array cell. -/
def countArrWrite (l : List MapEv) (aid px : Nat) : Nat :=
  l.countP fun e =>
    match e with
    | .arrWrite aid' px' _ => aid' == aid && px' == px
    | _ => false

/-- How many training calls a trace holds for a given model name. -/
def countTrain (l : List MapEv) (m : String) : Nat :=
  l.countP fun e =>
    match e with
    | .train m' => m' == m
    | _ => false

/-- How many runKMmain invocations a trace holds. -/
def countKmMain (l : List MapEv) : Nat :=
  l.countP fun e =>
    match e with
    | .kmMain _ => true
    | _ => false

/-- Reading an array cell through a name bound to array id aid. -/
def heapRead (h : Nat → List Int) (aid idx : Nat) : Int :=
  (h aid).getD idx 0

/-- Storing to an array cell through a name bound to array id aid. -/
def heapStore (h : Nat → List Int) (aid idx : Nat) (v : Int) :
    Nat → List Int :=
  fun a => if a = aid then (h a).set idx v else h a

/-! ## Concrete map instances used by witnesses and counterexamples -/

/-- Map configuration with only sklearn-NN and SVM enabled. -/
def cfgNNSVM : MapCfg :=
  { runDNNTF := false, runSkflowDNNTF := false, dnntf_runKeras := false,
    keras_runKeras := false, runNN := true, runSVM := true,
    runTF := false, runKM := false }

/-- Map configuration with NN, SVM, raw TF and K-Means enabled. -/
def cfgMapShared : MapCfg :=
  { runDNNTF := false, runSkflowDNNTF := false, dnntf_runKeras := false,
    keras_runKeras := false, runNN := true, runSVM := true,
    runTF := true, runKM := true }

/-- Map configuration with only K-Means enabled. -/
def cfgKMMap : MapCfg :=
  { runDNNTF := false, runSkflowDNNTF := false, dnntf_runKeras := false,
    keras_runKeras := false, runNN := false, runSVM := false,
    runTF := false, runKM := true }

/-- Concrete map oracles with distinct values per model family. -/
def oMap : MapOracles :=
  { X := fun _ => 0, Y := fun _ => 0,
    predDNNTF := fun _ => 71, predDNNTF2 := fun _ => 72,
    predKeras := fun _ => 81,
    predNN := fun _ => 1, predSVM := fun _ => 2,
    predTFread := fun _ _ => 99, predKM := fun _ => 5 }

/-! ## Helper lemmas about the batch branches -/

theorem dnntfStep_shape (c : BatchCfg) (o : BatchOracles) (R : Int)
    (a b : StAcc) (h : dnntfStep c o R a = Except.ok b) :
    (∃ v1 v2 : Int, b.2 = a.2 ++
      (if c.runDNNTF = true then [BField.val v1, BField.val v2] else [])) ∧
    b.1 = (if c.runDNNTF = true then { a.1 with dnntf_alwaysRetrain := false }
           else a.1) := by
  unfold dnntfStep at h
  cases hc : c.runDNNTF
  · rw [hc] at h
    simp only [Bool.false_eq_true, if_false, Except.ok.injEq] at h
    subst h
    exact ⟨⟨0, 0, by simp [hc]⟩, by simp [hc]⟩
  · rw [hc] at h
    simp only [if_true] at h
    cases hm : (if c.runSkflowDNNTF = true then
        match o.trainDNNTF2 with
        | .error e => .error e
        | .ok m => o.predDNNTF2 m.1 m.2 R
      else
        match o.trainDNNTF with
        | .error e => .error e
        | .ok m => o.predDNNTF m.1 m.2 R : Except Unit (Int × Int)) with
    | error e => rw [hm] at h; cases h
    | ok pr =>
      rw [hm] at h
      cases h
      exact ⟨⟨pr.1, pr.2, by simp [hc]⟩, by simp [hc]⟩

theorem kerasStep_shape (c : BatchCfg) (o : BatchOracles) (R : Int)
    (a b : StAcc) (h : kerasStep c o R a = Except.ok b) :
    (∃ v1 v2 : Int, b.2 = a.2 ++
      (if c.runKeras = true then [BField.val v1, BField.val v2] else [])) ∧
    b.1 = a.1 := by
  unfold kerasStep at h
  cases hc : c.runKeras
  · rw [hc] at h
    simp only [Bool.false_eq_true, if_false, Except.ok.injEq] at h
    subst h
    exact ⟨⟨0, 0, by simp [hc]⟩, rfl⟩
  · rw [hc] at h
    simp only [if_true] at h
    cases hm : o.trainKeras with
    | error e => simp [hm] at h
    | ok m =>
      simp only [hm] at h
      cases hp : o.predKeras o.model_keras m.2 R with
      | error e => simp [hp] at h
      | ok pr =>
        simp only [hp, Except.ok.injEq] at h
        subst h
        exact ⟨⟨pr.1, pr.2, by simp [hc]⟩, rfl⟩

theorem nnStep_shape (c : BatchCfg) (o : BatchOracles) (R : Int)
    (a b : StAcc) (h : nnStep c o R a = Except.ok b) :
    (∃ v1 v2 : Int, b.2 = a.2 ++
      (if c.runNN = true then [BField.val v1, BField.val v2] else [])) ∧
    b.1 = (if c.runNN = true then { a.1 with nn_alwaysRetrain := false }
           else a.1) := by
  unfold nnStep at h
  cases hc : c.runNN
  · rw [hc] at h
    simp only [Bool.false_eq_true, if_false, Except.ok.injEq] at h
    subst h
    exact ⟨⟨0, 0, by simp [hc]⟩, by simp [hc]⟩
  · rw [hc] at h
    simp only [if_true] at h
    cases hm : o.trainNN with
    | error e => simp [hm] at h
    | ok m =>
      simp only [hm] at h
      cases hp : o.predNN m.1 m.2 R with
      | error e => simp [hp] at h
      | ok pr =>
        simp only [hp, Except.ok.injEq] at h
        subst h
        exact ⟨⟨pr.1, pr.2, by simp [hc]⟩, by simp [hc]⟩

theorem svmStep_shape (c : BatchCfg) (o : BatchOracles) (R : Int)
    (a b : StAcc) (h : svmStep c o R a = Except.ok b) :
    (∃ v1 v2 : Int, b.2 = a.2 ++
      (if c.runSVM = true then [BField.val v1, BField.val v2] else [])) ∧
    b.1 = (if c.runSVM = true then { a.1 with svm_alwaysRetrain := false }
           else a.1) := by
  unfold svmStep at h
  cases hc : c.runSVM
  · rw [hc] at h
    simp only [Bool.false_eq_true, if_false, Except.ok.injEq] at h
    subst h
    exact ⟨⟨0, 0, by simp [hc]⟩, by simp [hc]⟩
  · rw [hc] at h
    simp only [if_true] at h
    cases hm : o.trainSVM with
    | error e => simp [hm] at h
    | ok m =>
      simp only [hm] at h
      cases hp : o.predSVM m.1 m.2 R with
      | error e => simp [hp] at h
      | ok pr =>
        simp only [hp, Except.ok.injEq] at h
        subst h
        exact ⟨⟨pr.1, pr.2, by simp [hc]⟩, by simp [hc]⟩

theorem tfStep_shape (c : BatchCfg) (o : BatchOracles) (R : Int)
    (a b : StAcc) (h : tfStep c o R a = Except.ok b) :
    (∃ v1 v2 : Int, b.2 = a.2 ++
      (if c.runTF = true then
        [BField.val v1, BField.val v2, BField.val o.tfAccur] else [])) ∧
    b.1 = (if c.runTF = true then { a.1 with tf_tfalwaysRetrain := false }
           else a.1) := by
  unfold tfStep at h
  cases hc : c.runTF
  · rw [hc] at h
    simp only [Bool.false_eq_true, if_false, Except.ok.injEq] at h
    subst h
    exact ⟨⟨0, 0, by simp [hc]⟩, by simp [hc]⟩
  · rw [hc] at h
    simp only [if_true] at h
    cases hm : o.trainTF with
    | error e => simp [hm] at h
    | ok m =>
      simp only [hm] at h
      cases hp : o.predTF R with
      | error e => simp [hp] at h
      | ok pr =>
        simp only [hp, Except.ok.injEq] at h
        subst h
        exact ⟨⟨pr.1, pr.2, by simp [hc]⟩, by simp [hc]⟩

theorem kmStep_shape (c : BatchCfg) (o : BatchOracles) (R Rorig : Int)
    (a b : StAcc) (h : kmStep c o R Rorig a = Except.ok b) :
    (∃ v : Int, b.2 = a.2 ++
      (if c.runKM = true then [BField.val v] else [])) ∧
    b.1 = (if c.runKM = true then { a.1 with km_plotKM := false }
           else a.1) := by
  unfold kmStep at h
  cases hc : c.runKM
  · rw [hc] at h
    simp only [Bool.false_eq_true, if_false, Except.ok.injEq] at h
    subst h
    exact ⟨⟨0, by simp [hc]⟩, by simp [hc]⟩
  · rw [hc] at h
    simp only [if_true] at h
    cases hm : o.runKMmain R Rorig with
    | error e => simp [hm] at h
    | ok p =>
      simp only [hm, Except.ok.injEq] at h
      subst h
      exact ⟨⟨p, by simp [hc]⟩, by simp [hc]⟩

/-! ## Claim theorems: C3, C8, C4 -/

/-- C3: for every non-empty label vector Cl, the number of PCA components
computed by runPCA equals the number of distinct labels in Cl when no
custom component count is configured, and equals the configured override
value otherwise. -/
theorem pca_component_count (En A Y : Int) (Cl : List Int) (custom : Bool)
    (numC : Nat) (hCl : Cl ≠ []) :
    (custom = false →
      (runPCA En Cl A Y custom numC).numComponents = Cl.toFinset.card) ∧
    (custom = true →
      (runPCA En Cl A Y custom numC).numComponents = numC) := by
  constructor <;> intro hc <;>
    simp [runPCA, hc, np_uniqueCount, List.card_toFinset]

/-- Witness for pca_component_count: the label vector [3, 5, 3] is
non-empty, has 2 distinct labels, and runPCA with no custom count computes
2 components. -/
theorem pca_component_count_witness :
    (runPCA 0 [3, 5, 3] 0 0 false 7).numComponents
        = ([3, 5, 3] : List Int).toFinset.card ∧
    (runPCA 0 [3, 5, 3] 0 0 false 7).numComponents = 2 :=
  ⟨(pca_component_count 0 0 0 [3, 5, 3] false 7 (by decide)).1 rfl, by decide⟩

/-- C8: in single-file mode the PCA diagnostic feeds nothing downstream:
the adapter inputs are identical whether or not pcaDef.runPCA is set, and
with the flag set the diagnostic does run over the full training data. -/
theorem pca_is_side_diagnostic (c : FileCfg) (o : FilePipeOracles) :
    (LearnPredictFile { c with runPCA := true } o).inputs
      = (LearnPredictFile { c with runPCA := false } o).inputs ∧
    (LearnPredictFile { c with runPCA := true } o).pcaDiag
      = some (runPCA o.readLearnFileEn o.readLearnFileCl o.readLearnFileA
          o.readLearnFileY c.customNumPCAComp c.numPCAcomponents) := by
  constructor <;> rfl

/-- C4: a file is submitted to processSingleBatch iff it is in the working
directory, matches the '*.txt' glob, and differs from the training file; in
particular the training file itself is never processed. -/
theorem batch_excludes_training_file (dir : List String)
    (learnFile f : String) :
    (f ∈ batchTargets dir learnFile ↔
      (f ∈ dir ∧ matchesTxtGlob f = true ∧ f ≠ learnFile)) ∧
    learnFile ∉ batchTargets dir learnFile := by
  have key : ∀ g : String, g ∈ batchTargets dir learnFile ↔
      (g ∈ dir ∧ matchesTxtGlob g = true ∧ g ≠ learnFile) := by
    intro g
    simp only [batchTargets, globTxt, List.mem_filter, Bool.not_eq_true',
      beq_eq_false_iff_ne, ne_eq, and_assoc]
  refine ⟨key f, fun hmem => ?_⟩
  have := (key learnFile).mp hmem
  exact this.2.2 rfl

/-! ## Helper lemmas about the map loop -/

theorem countP_flatMap_range (p : MapEv → Bool) (g : Nat → List MapEv)
    (n : Nat) :
    ((List.range n).flatMap g).countP p
      = ∑ j ∈ Finset.range n, (g j).countP p := by
  induction n with
  | zero => simp
  | succ k ih =>
    rw [List.range_succ, List.flatMap_append, List.countP_append, ih,
      Finset.sum_range_succ]
    simp

theorem countSink_flatMap_range (g : Nat → List MapEv) (n : Nat)
    (m : String) (i : Nat) :
    countSink ((List.range n).flatMap g) m i
      = ∑ j ∈ Finset.range n, countSink (g j) m i :=
  countP_flatMap_range _ g n

theorem countArrWrite_flatMap_range (g : Nat → List MapEv) (n : Nat)
    (aid i : Nat) :
    countArrWrite ((List.range n).flatMap g) aid i
      = ∑ j ∈ Finset.range n, countArrWrite (g j) aid i :=
  countP_flatMap_range _ g n

theorem countTrain_flatMap_range (g : Nat → List MapEv) (n : Nat)
    (m : String) :
    countTrain ((List.range n).flatMap g) m
      = ∑ j ∈ Finset.range n, countTrain (g j) m :=
  countP_flatMap_range _ g n

theorem countKmMain_flatMap_range (g : Nat → List MapEv) (n : Nat) :
    countKmMain ((List.range n).flatMap g)
      = ∑ j ∈ Finset.range n, countKmMain (g j) :=
  countP_flatMap_range _ g n

theorem countP_if_list (b : Bool) (l : List MapEv) (p : MapEv → Bool) :
    (if b = true then l else []).countP p
      = if b = true then l.countP p else 0 := by
  cases b <;> simp

theorem body_sink_dnntf (c : MapCfg) (o : MapOracles) (j i : Nat) :
    countSink (mapBodyEvents c o j) "DNN-TF" i
      = if c.runDNNTF = true ∧ i = j then 1 else 0 := by
  unfold countSink mapBodyEvents
  simp only [List.countP_append, countP_if_list]
  by_cases hij : i = j
  · subst hij
    simp [List.countP_cons]
  · have hji : (j == i) = false := by
      simp only [beq_eq_false_iff_ne, ne_eq]
      exact fun hh => hij hh.symm
    simp [List.countP_cons, hji, hij]

theorem body_sink_keras (c : MapCfg) (o : MapOracles) (j i : Nat) :
    countSink (mapBodyEvents c o j) "Keras" i
      = if c.dnntf_runKeras = true ∧ i = j then 1 else 0 := by
  unfold countSink mapBodyEvents
  simp only [List.countP_append, countP_if_list]
  by_cases hij : i = j
  · subst hij
    simp [List.countP_cons]
  · have hji : (j == i) = false := by
      simp only [beq_eq_false_iff_ne, ne_eq]
      exact fun hh => hij hh.symm
    simp [List.countP_cons, hji, hij]

theorem body_sink_nn (c : MapCfg) (o : MapOracles) (j i : Nat) :
    countSink (mapBodyEvents c o j) "NN" i
      = if c.runNN = true ∧ i = j then 1 else 0 := by
  unfold countSink mapBodyEvents
  simp only [List.countP_append, countP_if_list]
  by_cases hij : i = j
  · subst hij
    simp [List.countP_cons]
  · have hji : (j == i) = false := by
      simp only [beq_eq_false_iff_ne, ne_eq]
      exact fun hh => hij hh.symm
    simp [List.countP_cons, hji, hij]

theorem body_sink_svm (c : MapCfg) (o : MapOracles) (j i : Nat) :
    countSink (mapBodyEvents c o j) "svm" i
      = if c.runSVM = true ∧ i = j then 1 else 0 := by
  unfold countSink mapBodyEvents
  simp only [List.countP_append, countP_if_list]
  by_cases hij : i = j
  · subst hij
    simp [List.countP_cons]
  · have hji : (j == i) = false := by
      simp only [beq_eq_false_iff_ne, ne_eq]
      exact fun hh => hij hh.symm
    simp [List.countP_cons, hji, hij]

theorem body_sink_tf (c : MapCfg) (o : MapOracles) (j i : Nat) :
    countSink (mapBodyEvents c o j) "TF" i
      = if c.runTF = true ∧ i = j then 1 else 0 := by
  unfold countSink mapBodyEvents
  simp only [List.countP_append, countP_if_list]
  by_cases hij : i = j
  · subst hij
    simp [List.countP_cons]
  · have hji : (j == i) = false := by
      simp only [beq_eq_false_iff_ne, ne_eq]
      exact fun hh => hij hh.symm
    simp [List.countP_cons, hji, hij]

theorem body_sink_km (c : MapCfg) (o : MapOracles) (j i : Nat) :
    countSink (mapBodyEvents c o j) "KM" i
      = if c.runKM = true ∧ i = j then 1 else 0 := by
  unfold countSink mapBodyEvents
  simp only [List.countP_append, countP_if_list]
  by_cases hij : i = j
  · subst hij
    simp [List.countP_cons]
  · have hji : (j == i) = false := by
      simp only [beq_eq_false_iff_ne, ne_eq]
      exact fun hh => hij hh.symm
    simp [List.countP_cons, hji, hij]

theorem body_arrWrite_shared (c : MapCfg) (o : MapOracles) (j i : Nat) :
    countArrWrite (mapBodyEvents c o j) sharedAid i
      = if i = j then
          (if c.runNN = true then 1 else 0) + (if c.runSVM = true then 1 else 0)
            + (if c.runKM = true then 1 else 0)
        else 0 := by
  unfold countArrWrite mapBodyEvents
  simp only [List.countP_append, countP_if_list]
  by_cases hij : i = j
  · subst hij
    cases c.runNN <;> cases c.runSVM <;> cases c.runKM <;>
      simp [List.countP_cons, sharedAid, dnntfAid, kerasAid]
  · have hji : (j == i) = false := by
      simp only [beq_eq_false_iff_ne, ne_eq]
      exact fun hh => hij hh.symm
    simp [List.countP_cons, hji, hij, sharedAid, dnntfAid, kerasAid]

theorem body_arrWrite_dnntf (c : MapCfg) (o : MapOracles) (j i : Nat) :
    countArrWrite (mapBodyEvents c o j) dnntfAid i
      = if c.runDNNTF = true ∧ i = j then 1 else 0 := by
  unfold countArrWrite mapBodyEvents
  simp only [List.countP_append, countP_if_list]
  by_cases hij : i = j
  · subst hij
    simp [List.countP_cons, sharedAid, dnntfAid, kerasAid]
  · have hji : (j == i) = false := by
      simp only [beq_eq_false_iff_ne, ne_eq]
      exact fun hh => hij hh.symm
    simp [List.countP_cons, hji, hij, sharedAid, dnntfAid, kerasAid]

theorem body_arrWrite_keras (c : MapCfg) (o : MapOracles) (j i : Nat) :
    countArrWrite (mapBodyEvents c o j) kerasAid i
      = if c.dnntf_runKeras = true ∧ i = j then 1 else 0 := by
  unfold countArrWrite mapBodyEvents
  simp only [List.countP_append, countP_if_list]
  by_cases hij : i = j
  · subst hij
    simp [List.countP_cons, sharedAid, dnntfAid, kerasAid]
  · have hji : (j == i) = false := by
      simp only [beq_eq_false_iff_ne, ne_eq]
      exact fun hh => hij hh.symm
    simp [List.countP_cons, hji, hij, sharedAid, dnntfAid, kerasAid]

theorem body_train_count (c : MapCfg) (o : MapOracles) (j : Nat)
    (m : String) :
    countTrain (mapBodyEvents c o j) m
      = if c.runTF = true && ("TF" == m) then 1 else 0 := by
  unfold countTrain mapBodyEvents
  simp only [List.countP_append, countP_if_list]
  cases c.runDNNTF <;> cases c.dnntf_runKeras <;> cases c.runNN <;>
    cases c.runSVM <;> cases h : c.runTF <;> cases c.runKM <;>
      cases h2 : ("TF" == m) <;> simp [List.countP_cons, h2]

theorem body_kmMain_count (c : MapCfg) (o : MapOracles) (j : Nat) :
    countKmMain (mapBodyEvents c o j)
      = if c.runKM = true then 1 else 0 := by
  unfold countKmMain mapBodyEvents
  simp only [List.countP_append, countP_if_list]
  cases c.runDNNTF <;> cases c.dnntf_runKeras <;> cases c.runNN <;>
    cases c.runSVM <;> cases c.runTF <;> cases h : c.runKM <;>
      simp [List.countP_cons]

theorem sum_pix_ite (n i k : Nat) :
    (∑ j ∈ Finset.range n, if i = j then k else 0)
      = if i < n then k else 0 := by
  rw [Finset.sum_ite_eq]
  simp [Finset.mem_range]

theorem sum_flag_pix_ite (n i : Nat) (b : Bool) :
    (∑ j ∈ Finset.range n, if b = true ∧ i = j then 1 else 0)
      = if b = true ∧ i < n then 1 else 0 := by
  cases b
  · simp
  · simp only [true_and]
    exact sum_pix_ite n i 1

/-! ## Claim theorems: C1, C6, C7, C10 -/

/-- C1 (amended): a successful processSingleBatch run builds the summary
row as the source filename followed, in the source's order DNN-TF, Keras,
sklearn-NN, SVM, raw-TensorFlow, K-Means, by two fields (label, confidence)
for each enabled family except raw-TensorFlow, which contributes three
(label, confidence, accuracy), and K-Means, which contributes a single
field; hence the row length is 1 + 2·(enabled among DNN-TF, Keras, NN, SVM)
+ 3·(raw TF) + 1·(K-Means). -/
theorem summaryRow_shape_and_length (c : BatchCfg) (o : BatchOracles)
    (f : String) (st st' : MutFlags) (row : List BField)
    (h : processSingleBatch c o f st = Except.ok (st', row)) :
    (∃ d1 d2 k1 k2 n1 n2 s1 s2 t1 t2 km1 : Int,
      row = [BField.str f]
        ++ (if c.runDNNTF = true then [BField.val d1, BField.val d2] else [])
        ++ (if c.runKeras = true then [BField.val k1, BField.val k2] else [])
        ++ (if c.runNN = true then [BField.val n1, BField.val n2] else [])
        ++ (if c.runSVM = true then [BField.val s1, BField.val s2] else [])
        ++ (if c.runTF = true then
              [BField.val t1, BField.val t2, BField.val o.tfAccur] else [])
        ++ (if c.runKM = true then [BField.val km1] else [])) ∧
    row.length = 1 + (if c.runDNNTF = true then 2 else 0)
      + (if c.runKeras = true then 2 else 0)
      + (if c.runNN = true then 2 else 0)
      + (if c.runSVM = true then 2 else 0)
      + (if c.runTF = true then 3 else 0)
      + (if c.runKM = true then 1 else 0) := by
  unfold processSingleBatch at h
  cases hrd : o.readPredFile f with
  | error e => simp [hrd] at h
  | ok rd =>
  simp only [hrd] at h
  cases hpp : o.preProcessNormPredData rd.1 rd.2 with
  | error e => simp [hpp] at h
  | ok pp =>
  simp only [hpp] at h
  cases h1 : dnntfStep c o pp.1 (st, [BField.str f]) with
  | error e => simp [h1] at h
  | ok a1 =>
  simp only [h1] at h
  cases h2 : kerasStep c o pp.1 a1 with
  | error e => simp [h2] at h
  | ok a2 =>
  simp only [h2] at h
  cases h3 : nnStep c o pp.1 a2 with
  | error e => simp [h3] at h
  | ok a3 =>
  simp only [h3] at h
  cases h4 : svmStep c o pp.1 a3 with
  | error e => simp [h4] at h
  | ok a4 =>
  simp only [h4] at h
  cases h5 : tfStep c o pp.1 a4 with
  | error e => simp [h5] at h
  | ok a5 =>
  simp only [h5] at h
  cases h6 : kmStep c o pp.1 pp.2 a5 with
  | error e => simp [h6] at h
  | ok a6 =>
  simp only [h6, Except.ok.injEq] at h
  obtain ⟨d1, d2, e1⟩ := (dnntfStep_shape c o pp.1 _ _ h1).1
  obtain ⟨k1, k2, e2⟩ := (kerasStep_shape c o pp.1 _ _ h2).1
  obtain ⟨n1, n2, e3⟩ := (nnStep_shape c o pp.1 _ _ h3).1
  obtain ⟨s1, s2, e4⟩ := (svmStep_shape c o pp.1 _ _ h4).1
  obtain ⟨t1, t2, e5⟩ := (tfStep_shape c o pp.1 _ _ h5).1
  obtain ⟨km1, e6⟩ := (kmStep_shape c o pp.1 pp.2 _ _ h6).1
  have hrow : row = a6.2 := by rw [h]
  have hshape : row = [BField.str f]
      ++ (if c.runDNNTF = true then [BField.val d1, BField.val d2] else [])
      ++ (if c.runKeras = true then [BField.val k1, BField.val k2] else [])
      ++ (if c.runNN = true then [BField.val n1, BField.val n2] else [])
      ++ (if c.runSVM = true then [BField.val s1, BField.val s2] else [])
      ++ (if c.runTF = true then
            [BField.val t1, BField.val t2, BField.val o.tfAccur] else [])
      ++ (if c.runKM = true then [BField.val km1] else []) := by
    rw [hrow, e6, e5, e4, e3, e2, e1]
  refine ⟨⟨d1, d2, k1, k2, n1, n2, s1, s2, t1, t2, km1, hshape⟩, ?_⟩
  rw [hshape]
  cases hc1 : c.runDNNTF <;> cases hc2 : c.runKeras <;> cases hc3 : c.runNN <;>
    cases hc4 : c.runSVM <;> cases hc5 : c.runTF <;> cases hc6 : c.runKM <;>
      simp

/-- C1 (counterexample): with only K-Means enabled the row is
[filename, label] — 2 fields, not the 1·2+1 = 3 (or 1·3+1 = 4) the claim's
formula gives, because the K-Means branch appends a single value and no
confidence; and with all six families enabled the row the code builds has
13 fields and places the Keras pair right after DNN-TF, whereas the layout
the claim describes (claimSummaryRow, label+confidence per family, accuracy
on raw TF, Keras after raw TF) has 14 fields at the same inputs. -/
theorem summaryRow_claim_refuted :
    processSingleBatch cfgKMBatch oracleVals "sample.txt" mfAllTrue
      = Except.ok
          ({ dnntf_alwaysRetrain := true, nn_alwaysRetrain := true,
             svm_alwaysRetrain := true, tf_tfalwaysRetrain := true,
             km_plotKM := false },
           [BField.str "sample.txt", BField.val 61]) ∧
    ([BField.str "sample.txt", BField.val 61] : List BField).length = 2 ∧
    (2 : Nat) ≠ 1 * 2 + 1 ∧ (2 : Nat) ≠ 1 * 3 + 1 ∧
    processSingleBatch cfgAllBatch oracleVals "sample.txt" mfAllTrue
      = Except.ok
          ({ dnntf_alwaysRetrain := false, nn_alwaysRetrain := false,
             svm_alwaysRetrain := false, tf_tfalwaysRetrain := false,
             km_plotKM := false }, rowAllVals) ∧
    rowAllVals.length = 13 ∧
    (claimSummaryRow cfgAllBatch "sample.txt" (11, 12) (31, 32) (41, 42)
        (51, 52) 53 (21, 22) (61, 0)).length = 14 ∧
    rowAllVals ≠ claimSummaryRow cfgAllBatch "sample.txt" (11, 12) (31, 32)
        (41, 42) (51, 52) 53 (21, 22) (61, 0) := by
  refine ⟨rfl, by decide, by decide, by decide, rfl, by decide, by decide, ?_⟩
  decide

/-- Witness for summaryRow_shape_and_length at cfgAllBatch / oracleVals. -/
theorem summaryRow_shape_witness :
    (∃ d1 d2 k1 k2 n1 n2 s1 s2 t1 t2 km1 : Int,
      rowAllVals = [BField.str "sample.txt"]
        ++ [BField.val d1, BField.val d2] ++ [BField.val k1, BField.val k2]
        ++ [BField.val n1, BField.val n2] ++ [BField.val s1, BField.val s2]
        ++ [BField.val t1, BField.val t2, BField.val 53]
        ++ [BField.val km1]) ∧
    rowAllVals.length = 13 :=
  summaryRow_shape_and_length cfgAllBatch oracleVals "sample.txt" mfAllTrue
    { dnntf_alwaysRetrain := false, nn_alwaysRetrain := false,
      svm_alwaysRetrain := false, tf_tfalwaysRetrain := false,
      km_plotKM := false } rowAllVals rfl

/-- C6: when any step of processSingleBatch raises — the prediction-file
loader, the preprocessor or any model adapter — nothing is appended to the
summary file: the writerow call at lines 227-229 is only reached after
every enabled branch has succeeded, so the summary is unchanged and no
partial row exists. -/
theorem failed_batch_file_writes_nothing (c : BatchCfg) (o : BatchOracles)
    (f : String) (st : MutFlags)
    (h : ∃ e, processSingleBatch c o f st = Except.error e) :
    ∀ summary : List (List BField),
      summary ++ processSingleBatchWrites c o f st = summary := by
  obtain ⟨e, he⟩ := h
  intro s
  simp [processSingleBatchWrites, he]

/-- Witness for failed_batch_file_writes_nothing: SVM training raises after
DNN-TF, Keras and sklearn-NN succeeded, and the summary stays unchanged. -/
theorem failed_batch_file_writes_nothing_witness :
    [[BField.val 0]] ++
        processSingleBatchWrites cfgAllBatch oracleFailSVM "sample.txt"
          mfAllTrue
      = [[BField.val 0]] :=
  failed_batch_file_writes_nothing cfgAllBatch oracleFailSVM "sample.txt"
    mfAllTrue ⟨(), rfl⟩ [[BField.val 0]]

/-- The sequential per-file writes contain no header. -/
theorem seqRowWrites_no_header (c : BatchCfg) (o : BatchOracles)
    (fs : List String) (st : MutFlags) :
    (seqRowWrites c o fs st).countP isHeaderWrite = 0 := by
  induction fs generalizing st with
  | nil => simp [seqRowWrites]
  | cons f fs ih =>
    unfold seqRowWrites
    cases hp : processSingleBatch c o f st with
    | error e => simp
    | ok r => simp [List.countP_cons, isHeaderWrite, ih]

/-- The parallel per-file writes contain no header. -/
theorem parRowWrites_no_header (c : BatchCfg) (o : BatchOracles)
    (fs : List String) (st0 : MutFlags) :
    (fs.flatMap
        (fun f => (processSingleBatchWrites c o f st0).map SummaryWrite.row)
      ).countP isHeaderWrite = 0 := by
  induction fs with
  | nil => simp
  | cons f fs ih =>
    simp only [List.flatMap_cons, List.countP_append, ih, Nat.add_zero]
    simp [List.countP_eq_zero, isHeaderWrite]

/-- C7: in both the sequential and the multiprocessing branch of
LearnPredictBatch, the summary header is written exactly once and is the
first write of the trace, before any per-file row, whatever the completion
order of the workers. -/
theorem summary_header_first (c : BatchCfg) (o : BatchOracles)
    (dir : List String) (learnFile : String) (st0 : MutFlags)
    (completions : List String) :
    (batchTraceSeq c o dir learnFile st0).head?
        = some (SummaryWrite.header learnFile) ∧
    (batchTraceSeq c o dir learnFile st0).countP isHeaderWrite = 1 ∧
    (batchTracePar c o learnFile completions st0).head?
        = some (SummaryWrite.header learnFile) ∧
    (batchTracePar c o learnFile completions st0).countP isHeaderWrite = 1 := by
  refine ⟨rfl, ?_, rfl, ?_⟩
  · simp [batchTraceSeq, List.countP_cons, isHeaderWrite,
      seqRowWrites_no_header]
  · simp [batchTracePar, List.countP_cons, isHeaderWrite,
      parRowWrites_no_header]

/-- The exact effect of one processSingleBatch call on the mutable flags:
each enabled family's flag is set to False, every other flag is kept. -/
theorem processSingleBatch_flags (c : BatchCfg) (o : BatchOracles)
    (f : String) (st st' : MutFlags) (row : List BField)
    (h : processSingleBatch c o f st = Except.ok (st', row)) :
    st'.dnntf_alwaysRetrain
        = (if c.runDNNTF = true then false else st.dnntf_alwaysRetrain) ∧
    st'.nn_alwaysRetrain
        = (if c.runNN = true then false else st.nn_alwaysRetrain) ∧
    st'.svm_alwaysRetrain
        = (if c.runSVM = true then false else st.svm_alwaysRetrain) ∧
    st'.tf_tfalwaysRetrain
        = (if c.runTF = true then false else st.tf_tfalwaysRetrain) ∧
    st'.km_plotKM = (if c.runKM = true then false else st.km_plotKM) := by
  unfold processSingleBatch at h
  cases hrd : o.readPredFile f with
  | error e => simp [hrd] at h
  | ok rd =>
  simp only [hrd] at h
  cases hpp : o.preProcessNormPredData rd.1 rd.2 with
  | error e => simp [hpp] at h
  | ok pp =>
  simp only [hpp] at h
  cases h1 : dnntfStep c o pp.1 (st, [BField.str f]) with
  | error e => simp [h1] at h
  | ok a1 =>
  simp only [h1] at h
  cases h2 : kerasStep c o pp.1 a1 with
  | error e => simp [h2] at h
  | ok a2 =>
  simp only [h2] at h
  cases h3 : nnStep c o pp.1 a2 with
  | error e => simp [h3] at h
  | ok a3 =>
  simp only [h3] at h
  cases h4 : svmStep c o pp.1 a3 with
  | error e => simp [h4] at h
  | ok a4 =>
  simp only [h4] at h
  cases h5 : tfStep c o pp.1 a4 with
  | error e => simp [h5] at h
  | ok a5 =>
  simp only [h5] at h
  cases h6 : kmStep c o pp.1 pp.2 a5 with
  | error e => simp [h6] at h
  | ok a6 =>
  simp only [h6, Except.ok.injEq] at h
  have f1 := (dnntfStep_shape c o pp.1 _ _ h1).2
  have f2 := (kerasStep_shape c o pp.1 _ _ h2).2
  have f3 := (nnStep_shape c o pp.1 _ _ h3).2
  have f4 := (svmStep_shape c o pp.1 _ _ h4).2
  have f5 := (tfStep_shape c o pp.1 _ _ h5).2
  have f6 := (kmStep_shape c o pp.1 pp.2 _ _ h6).2
  have hst : st' = a6.1 := by rw [h]
  rw [hst, f6, f5, f4, f3, f2, f1]
  cases hc1 : c.runDNNTF <;> cases hc3 : c.runNN <;> cases hc4 : c.runSVM <;>
    cases hc5 : c.runTF <;> cases hc6 : c.runKM <;> simp

/-- C10: along a sequential batch run, every state reached after a
processed file — and therefore the configuration seen by every file
processed afterwards — has dnntfDef.alwaysRetrain, nnDef.alwaysRetrain,
svmDef.alwaysRetrain, tfDef.tfalwaysRetrain set to False for each enabled
family, and kmDef.plotKM set to False when K-Means is enabled. -/
theorem batch_mutates_config_flags (c : BatchCfg) (o : BatchOracles)
    (files : List String) (st0 st' : MutFlags)
    (h : st' ∈ batchStatesSeq c o files st0) :
    (c.runDNNTF = true → st'.dnntf_alwaysRetrain = false) ∧
    (c.runNN = true → st'.nn_alwaysRetrain = false) ∧
    (c.runSVM = true → st'.svm_alwaysRetrain = false) ∧
    (c.runTF = true → st'.tf_tfalwaysRetrain = false) ∧
    (c.runKM = true → st'.km_plotKM = false) := by
  induction files generalizing st0 with
  | nil => simp [batchStatesSeq] at h
  | cons f fs ih =>
    unfold batchStatesSeq at h
    cases hp : processSingleBatch c o f st0 with
    | error e => rw [hp] at h; simp at h
    | ok r =>
      rw [hp] at h
      simp only [List.mem_cons] at h
      rcases h with h | h
      · subst h
        obtain ⟨e1, e2, e3, e4, e5⟩ :=
          processSingleBatch_flags c o f st0 r.1 r.2 hp
        exact ⟨fun hc => by rw [e1, hc]; rfl, fun hc => by rw [e2, hc]; rfl,
          fun hc => by rw [e3, hc]; rfl, fun hc => by rw [e4, hc]; rfl,
          fun hc => by rw [e5, hc]; rfl⟩
      · exact ih r.1 h

/-- Witness for batch_mutates_config_flags: after processing one file with
every family enabled, all five flags are False. -/
theorem batch_mutates_config_flags_witness :
    (cfgAllBatch.runDNNTF = true →
      ({ dnntf_alwaysRetrain := false, nn_alwaysRetrain := false,
         svm_alwaysRetrain := false, tf_tfalwaysRetrain := false,
         km_plotKM := false } : MutFlags).dnntf_alwaysRetrain = false) ∧
    (cfgAllBatch.runNN = true →
      ({ dnntf_alwaysRetrain := false, nn_alwaysRetrain := false,
         svm_alwaysRetrain := false, tf_tfalwaysRetrain := false,
         km_plotKM := false } : MutFlags).nn_alwaysRetrain = false) ∧
    (cfgAllBatch.runSVM = true →
      ({ dnntf_alwaysRetrain := false, nn_alwaysRetrain := false,
         svm_alwaysRetrain := false, tf_tfalwaysRetrain := false,
         km_plotKM := false } : MutFlags).svm_alwaysRetrain = false) ∧
    (cfgAllBatch.runTF = true →
      ({ dnntf_alwaysRetrain := false, nn_alwaysRetrain := false,
         svm_alwaysRetrain := false, tf_tfalwaysRetrain := false,
         km_plotKM := false } : MutFlags).tf_tfalwaysRetrain = false) ∧
    (cfgAllBatch.runKM = true →
      ({ dnntf_alwaysRetrain := false, nn_alwaysRetrain := false,
         svm_alwaysRetrain := false, tf_tfalwaysRetrain := false,
         km_plotKM := false } : MutFlags).km_plotKM = false) :=
  batch_mutates_config_flags cfgAllBatch oracleVals ["sample.txt"] mfAllTrue
    { dnntf_alwaysRetrain := false, nn_alwaysRetrain := false,
      svm_alwaysRetrain := false, tf_tfalwaysRetrain := false,
      km_plotKM := false } (by decide)

/-! ## Loop-level counting lemmas for map mode -/

theorem loop_sink_dnntf (c : MapCfg) (o : MapOracles) (n i : Nat) :
    countSink (mapLoopEvents c o n) "DNN-TF" i
      = if c.runDNNTF = true ∧ i < n then 1 else 0 := by
  unfold mapLoopEvents
  rw [countSink_flatMap_range]
  simp only [body_sink_dnntf]
  exact sum_flag_pix_ite n i _

theorem loop_sink_keras (c : MapCfg) (o : MapOracles) (n i : Nat) :
    countSink (mapLoopEvents c o n) "Keras" i
      = if c.dnntf_runKeras = true ∧ i < n then 1 else 0 := by
  unfold mapLoopEvents
  rw [countSink_flatMap_range]
  simp only [body_sink_keras]
  exact sum_flag_pix_ite n i _

theorem loop_sink_nn (c : MapCfg) (o : MapOracles) (n i : Nat) :
    countSink (mapLoopEvents c o n) "NN" i
      = if c.runNN = true ∧ i < n then 1 else 0 := by
  unfold mapLoopEvents
  rw [countSink_flatMap_range]
  simp only [body_sink_nn]
  exact sum_flag_pix_ite n i _

theorem loop_sink_svm (c : MapCfg) (o : MapOracles) (n i : Nat) :
    countSink (mapLoopEvents c o n) "svm" i
      = if c.runSVM = true ∧ i < n then 1 else 0 := by
  unfold mapLoopEvents
  rw [countSink_flatMap_range]
  simp only [body_sink_svm]
  exact sum_flag_pix_ite n i _

theorem loop_sink_tf (c : MapCfg) (o : MapOracles) (n i : Nat) :
    countSink (mapLoopEvents c o n) "TF" i
      = if c.runTF = true ∧ i < n then 1 else 0 := by
  unfold mapLoopEvents
  rw [countSink_flatMap_range]
  simp only [body_sink_tf]
  exact sum_flag_pix_ite n i _

theorem loop_sink_km (c : MapCfg) (o : MapOracles) (n i : Nat) :
    countSink (mapLoopEvents c o n) "KM" i
      = if c.runKM = true ∧ i < n then 1 else 0 := by
  unfold mapLoopEvents
  rw [countSink_flatMap_range]
  simp only [body_sink_km]
  exact sum_flag_pix_ite n i _

theorem loop_arrWrite_shared (c : MapCfg) (o : MapOracles) (n i : Nat) :
    countArrWrite (mapLoopEvents c o n) sharedAid i
      = if i < n then
          (if c.runNN = true then 1 else 0) + (if c.runSVM = true then 1 else 0)
            + (if c.runKM = true then 1 else 0)
        else 0 := by
  unfold mapLoopEvents
  rw [countArrWrite_flatMap_range]
  simp only [body_arrWrite_shared]
  exact sum_pix_ite n i _

theorem loop_arrWrite_dnntf (c : MapCfg) (o : MapOracles) (n i : Nat) :
    countArrWrite (mapLoopEvents c o n) dnntfAid i
      = if c.runDNNTF = true ∧ i < n then 1 else 0 := by
  unfold mapLoopEvents
  rw [countArrWrite_flatMap_range]
  simp only [body_arrWrite_dnntf]
  exact sum_flag_pix_ite n i _

theorem loop_arrWrite_keras (c : MapCfg) (o : MapOracles) (n i : Nat) :
    countArrWrite (mapLoopEvents c o n) kerasAid i
      = if c.dnntf_runKeras = true ∧ i < n then 1 else 0 := by
  unfold mapLoopEvents
  rw [countArrWrite_flatMap_range]
  simp only [body_arrWrite_keras]
  exact sum_flag_pix_ite n i _

theorem loop_train_count (c : MapCfg) (o : MapOracles) (n : Nat)
    (m : String) :
    countTrain (mapLoopEvents c o n) m
      = if c.runTF = true && ("TF" == m) then n else 0 := by
  unfold mapLoopEvents
  rw [countTrain_flatMap_range]
  simp only [body_train_count]
  cases htf : c.runTF
  · simp
  · cases h2 : ("TF" == m) <;> simp [h2]

theorem loop_kmMain_count (c : MapCfg) (o : MapOracles) (n : Nat) :
    countKmMain (mapLoopEvents c o n) = if c.runKM = true then n else 0 := by
  unfold mapLoopEvents
  rw [countKmMain_flatMap_range]
  simp only [body_kmMain_count]
  cases h : c.runKM <;> simp

theorem pre_train_nn (c : MapCfg) :
    countTrain (mapPreEvents c) "NN" = if c.runNN = true then 1 else 0 := by
  unfold countTrain mapPreEvents
  simp only [List.countP_append, countP_if_list]
  cases c.runNN <;> cases c.runDNNTF <;> cases c.keras_runKeras <;>
    cases c.runSVM <;> simp [List.countP_cons]

theorem pre_train_dnntf (c : MapCfg) :
    countTrain (mapPreEvents c) "DNN-TF"
      = if c.runDNNTF = true then 1 else 0 := by
  unfold countTrain mapPreEvents
  simp only [List.countP_append, countP_if_list]
  cases c.runNN <;> cases c.runDNNTF <;> cases c.keras_runKeras <;>
    cases c.runSVM <;> simp [List.countP_cons]

theorem pre_train_keras (c : MapCfg) :
    countTrain (mapPreEvents c) "Keras"
      = if c.keras_runKeras = true then 1 else 0 := by
  unfold countTrain mapPreEvents
  simp only [List.countP_append, countP_if_list]
  cases c.runNN <;> cases c.runDNNTF <;> cases c.keras_runKeras <;>
    cases c.runSVM <;> simp [List.countP_cons]

theorem pre_train_svm (c : MapCfg) :
    countTrain (mapPreEvents c) "SVM" = if c.runSVM = true then 1 else 0 := by
  unfold countTrain mapPreEvents
  simp only [List.countP_append, countP_if_list]
  cases c.runNN <;> cases c.runDNNTF <;> cases c.keras_runKeras <;>
    cases c.runSVM <;> simp [List.countP_cons]

theorem pre_train_tf (c : MapCfg) : countTrain (mapPreEvents c) "TF" = 0 := by
  unfold countTrain mapPreEvents
  simp only [List.countP_append, countP_if_list]
  cases c.runNN <;> cases c.runDNNTF <;> cases c.keras_runKeras <;>
    cases c.runSVM <;> simp [List.countP_cons]

theorem pre_kmMain (c : MapCfg) : countKmMain (mapPreEvents c) = 0 := by
  unfold countKmMain mapPreEvents
  simp only [List.countP_append, countP_if_list]
  cases c.runNN <;> cases c.runDNNTF <;> cases c.keras_runKeras <;>
    cases c.runSVM <;> simp [List.countP_cons]

/-! ## Claim theorems: C2, C5, C9 -/

/-- C2 (amended): for every enabled model-family branch and every pixel
i < n the loop emits exactly one saveMap record keyed by that model's name
and that pixel (no pixel skipped, none duplicated), and exactly one store
per pixel into the array that branch writes; but the sink-and-store pairs
do not live in per-model arrays: NN, SVM and K-Means all store into the
single array of line 245 (so its cell for pixel i receives one write per
enabled family among them), and the raw-TF branch stores into no array at
all — its saveMap record reads the rebound tfPred instead. -/
theorem map_sink_and_store_counts (c : MapCfg) (o : MapOracles) (n i : Nat) :
    countSink (mapLoopEvents c o n) "DNN-TF" i
        = (if c.runDNNTF = true ∧ i < n then 1 else 0) ∧
    countSink (mapLoopEvents c o n) "Keras" i
        = (if c.dnntf_runKeras = true ∧ i < n then 1 else 0) ∧
    countSink (mapLoopEvents c o n) "NN" i
        = (if c.runNN = true ∧ i < n then 1 else 0) ∧
    countSink (mapLoopEvents c o n) "svm" i
        = (if c.runSVM = true ∧ i < n then 1 else 0) ∧
    countSink (mapLoopEvents c o n) "TF" i
        = (if c.runTF = true ∧ i < n then 1 else 0) ∧
    countSink (mapLoopEvents c o n) "KM" i
        = (if c.runKM = true ∧ i < n then 1 else 0) ∧
    countArrWrite (mapLoopEvents c o n) dnntfAid i
        = (if c.runDNNTF = true ∧ i < n then 1 else 0) ∧
    countArrWrite (mapLoopEvents c o n) kerasAid i
        = (if c.dnntf_runKeras = true ∧ i < n then 1 else 0) ∧
    countArrWrite (mapLoopEvents c o n) sharedAid i
        = (if i < n then
            (if c.runNN = true then 1 else 0)
              + (if c.runSVM = true then 1 else 0)
              + (if c.runKM = true then 1 else 0)
           else 0) ∧
    nnPredAid = sharedAid ∧ svmPredAid = sharedAid ∧
    kmPredAid = sharedAid ∧ tfPredAid = sharedAid :=
  ⟨loop_sink_dnntf c o n i, loop_sink_keras c o n i, loop_sink_nn c o n i,
   loop_sink_svm c o n i, loop_sink_tf c o n i, loop_sink_km c o n i,
   loop_arrWrite_dnntf c o n i, loop_arrWrite_keras c o n i,
   loop_arrWrite_shared c o n i, rfl, rfl, rfl, rfl⟩

/-- C2 (counterexample): with sklearn-NN and SVM enabled on a one-pixel
map, the in-memory array retained for NN receives two stores at pixel 0 —
one from NN, one from SVM, since line 245 bound both names to the same
array — and the value it retains is SVM's prediction 2, not NN's
prediction 1; so it is false that exactly one prediction entry per
(model, pixel) pair is kept in the in-memory array, even though the
map-output sink does get exactly one record per model. -/
theorem map_per_pixel_claim_refuted :
    cfgNNSVM.runNN = true ∧ cfgNNSVM.runSVM = true ∧
    countArrWrite (mapLoopEvents cfgNNSVM oMap 1) nnPredAid 0 = 2 ∧
    (2 : Nat) ≠ 1 ∧
    nnRetained cfgNNSVM oMap 1 [0] 0 = 2 ∧ oMap.predNN 0 = 1 ∧
    ((2 : Int) ≠ 1) ∧
    countSink (mapLoopEvents cfgNNSVM oMap 1) "NN" 0 = 1 ∧
    countSink (mapLoopEvents cfgNNSVM oMap 1) "svm" 0 = 1 := by
  decide

/-- C5 (amended): in map mode the sklearn-NN, DNN-TF, Keras and SVM
families are each trained exactly once, before the per-pixel loop, and
never inside it; raw TensorFlow is never trained before the loop and is
retrained exactly once per pixel inside it; and the K-Means family has no
pre-loop call at all — its combined train-and-predict adapter runKMmain
runs once per pixel inside the loop. -/
theorem map_training_schedule (c : MapCfg) (o : MapOracles) (n : Nat) :
    countTrain (mapPreEvents c) "NN" = (if c.runNN = true then 1 else 0) ∧
    countTrain (mapPreEvents c) "DNN-TF"
        = (if c.runDNNTF = true then 1 else 0) ∧
    countTrain (mapPreEvents c) "Keras"
        = (if c.keras_runKeras = true then 1 else 0) ∧
    countTrain (mapPreEvents c) "SVM" = (if c.runSVM = true then 1 else 0) ∧
    countTrain (mapPreEvents c) "TF" = 0 ∧
    countTrain (mapLoopEvents c o n) "TF"
        = (if c.runTF = true then n else 0) ∧
    countTrain (mapLoopEvents c o n) "NN" = 0 ∧
    countTrain (mapLoopEvents c o n) "DNN-TF" = 0 ∧
    countTrain (mapLoopEvents c o n) "Keras" = 0 ∧
    countTrain (mapLoopEvents c o n) "SVM" = 0 ∧
    countKmMain (mapPreEvents c) = 0 ∧
    countKmMain (mapLoopEvents c o n) = (if c.runKM = true then n else 0) := by
  refine ⟨pre_train_nn c, pre_train_dnntf c, pre_train_keras c,
    pre_train_svm c, pre_train_tf c, ?_, ?_, ?_, ?_, ?_, pre_kmMain c,
    loop_kmMain_count c o n⟩ <;> rw [loop_train_count] <;> simp

/-- C5 (counterexample): with only K-Means enabled, nothing at all happens
before the per-pixel loop — the K-Means family is trained zero times, not
exactly once, before the loop — and its adapter is invoked once per pixel
inside the loop (here twice for a two-pixel map). -/
theorem map_pretrain_claim_refuted :
    cfgKMMap.runKM = true ∧ mapPreEvents cfgKMMap = [] ∧
    countKmMain (mapLoopEvents cfgKMMap oMap 2) = 2 := by
  decide

/-- C9 (amended): line 245 binds svmPred, nnPred, tfPred and kmPred to one
and the same array, so a store through any of the NN, SVM or K-Means names
at index i is read back through every name still bound to that array; the
one exception is raw TF: when it is enabled the loop rebinds tfPred to the
object predTF returned (line 297), so from the first pixel on the value
retained for TF is that object's content, no longer affected by the other
families' stores; with raw TF disabled the TF name keeps denoting the
shared array. -/
theorem map_array_aliasing (h : Nat → List Int) (i : Nat) (v : Int)
    (hlen : i < (h sharedAid).length) :
    (nnPredAid = svmPredAid ∧ svmPredAid = tfPredAid ∧
      tfPredAid = kmPredAid) ∧
    heapRead (heapStore h nnPredAid i v) svmPredAid i = v ∧
    heapRead (heapStore h nnPredAid i v) tfPredAid i = v ∧
    heapRead (heapStore h nnPredAid i v) kmPredAid i = v ∧
    heapRead (heapStore h svmPredAid i v) nnPredAid i = v ∧
    heapRead (heapStore h kmPredAid i v) nnPredAid i = v ∧
    (∀ (c : MapCfg) (o : MapOracles) (n : Nat) (init : List Int) (j : Nat),
      c.runTF = false → tfRetained c o n init j = kmRetained c o n init j) ∧
    (∀ (c : MapCfg) (o : MapOracles) (n : Nat) (init : List Int) (j : Nat),
      c.runTF = true → n ≠ 0 →
        tfRetained c o n init j = o.predTFread (n - 1) j) := by
  have hrd : ∀ aid1 aid2, aid1 = sharedAid → aid2 = sharedAid →
      heapRead (heapStore h aid1 i v) aid2 i = v := by
    intro a1 a2 h1 h2
    subst h1; subst h2
    simp [heapRead, heapStore, List.getD_eq_getElem?_getD,
      List.getElem?_set_self', hlen]
  refine ⟨⟨rfl, rfl, rfl⟩, hrd _ _ rfl rfl, hrd _ _ rfl rfl, hrd _ _ rfl rfl,
    hrd _ _ rfl rfl, hrd _ _ rfl rfl, ?_, ?_⟩
  · intro c o n init j hc
    simp [tfRetained, kmRetained, hc]
  · intro c o n init j hc hn
    simp [tfRetained, hc, hn]

/-- Witness for map_array_aliasing: on a one-cell heap, a store through
nnPred at index 0 is read back through tfPred. -/
theorem map_array_aliasing_witness :
    heapRead (heapStore (fun _ => [7]) nnPredAid 0 3) tfPredAid 0 = 3 :=
  (map_array_aliasing (fun _ => [7]) 0 3 (by decide)).2.2.1

/-- C9 (counterexample): with NN, SVM, raw TF and K-Means enabled on a
one-pixel map, K-Means stores its prediction 5 at index 0 and that value
is read back through the names kmPred, nnPred and svmPred — but not
through tfPred, whose retained value is 99, the content of the object
predTF returned after the loop rebound it; so storing one of the four
models' predictions does not change the value retained for each of the
other three. -/
theorem map_aliasing_claim_refuted :
    oMap.predKM 0 = 5 ∧
    kmRetained cfgMapShared oMap 1 [0] 0 = 5 ∧
    nnRetained cfgMapShared oMap 1 [0] 0 = 5 ∧
    svmRetained cfgMapShared oMap 1 [0] 0 = 5 ∧
    tfRetained cfgMapShared oMap 1 [0] 0 = 99 ∧
    ((99 : Int) ≠ 5) := by
  decide

end SLP
